import Mathlib

/-!
Shallow embedding of the Chrome-printer core of gotenberg
(internal/pkg/printer/chrome.go) together with proofs about the behaviour of
its admission control, request-error ledger, teardown ordering, readiness
gating, poll loop, benign-error classification, PrintToPDF error translation
and destination-file write.  Every definition is translated from the Go
source; line numbers in the doc comments refer to chrome.go.
-/

set_option maxRecDepth 10000

namespace Gotenberg

/-- Substring test modelling Go strings.Contains(s, pat): true exactly when
pat occurs contiguously inside s. -/
def strContains (s pat : String) : Bool := decide (pat.data <:+: s.data)

/-- Characterisation of strContains as list-level infix containment. -/
theorem strContains_iff (s pat : String) : strContains s pat = true ↔ pat.data <:+: s.data := by
  simp [strContains]

/-- Exhibiting the split of s around pat proves containment. -/
theorem strContains_mk (s pat : String) (l r : List Char)
    (h : s.data = l ++ pat.data ++ r) : strContains s pat = true := by
  rw [strContains_iff, h]
  exact List.infix_append l pat.data r

/-! ## Request ledger (chrome.go lines 288-362)

chromePrinter.Print keeps two maps keyed by network.RequestID:
requestURLs, written by the requestWillBeSent listener, and
requestErrorMessages, written by the responseReceived and loadingFailed
listeners.  Go maps are modelled as association lists with
update-or-insert assignment. -/

/-- CDP network request identifier (network.RequestID). -/
abbrev RequestID := String

/-- Sentinel error text Chrome reports for an aborted request; compared
against the stored value at chrome.go line 331. -/
def errAborted : String := "net::ERR_ABORTED"

/-- Go map assignment m[k] = v on an association list: replaces the binding
of k when present, otherwise appends it. -/
def setEntry (m : List (RequestID × String)) (k : RequestID) (v : String) :
    List (RequestID × String) :=
  match m with
  | [] => [(k, v)]
  | (k0, v0) :: rest => if k0 = k then (k, v) :: rest else (k0, v0) :: setEntry rest k v

/-- Go map lookup m[k] with its ok flag: some v when the key is bound. -/
def getEntry (m : List (RequestID × String)) (k : RequestID) : Option String :=
  match m with
  | [] => none
  | (k0, v0) :: rest => if k0 = k then some v0 else getEntry rest k

/-- One network event as consumed by the three network listeners of
chromePrinter.Print: requestWillBeSent carries the request URL,
responseReceived carries the HTTP status and status text, loadingFailed
carries the error text. -/
inductive NetworkEvent where
  | requestWillBeSent (id : RequestID) (url : String)
  | responseReceived (id : RequestID) (status : Int) (statusText : String)
  | loadingFailed (id : RequestID) (errorText : String)
deriving DecidableEq

/-- The two request-keyed maps of chromePrinter.Print. -/
structure RequestLedger where
  requestURLs : List (RequestID × String)
  requestErrorMessages : List (RequestID × String)
deriving DecidableEq

/-- Message recorded for a failing response: fmt.Sprintf of the status and
the status text separated by a space (chrome.go line 323). -/
def responseMsg (status : Int) (statusText : String) : String :=
  toString status ++ " " ++ statusText

/-- Effect of one network event on the ledger, straight from the listener
bodies (chrome.go lines 291-362): requestWillBeSent records the URL;
responseReceived with status below 400 is ignored, otherwise it writes the
status message when the key is absent or the stored value equals the
net::ERR_ABORTED sentinel; loadingFailed writes the error text only when the
key is absent. -/
def stepLedger (l : RequestLedger) (e : NetworkEvent) : RequestLedger :=
  match e with
  | .requestWillBeSent id url =>
      { l with requestURLs := setEntry l.requestURLs id url }
  | .responseReceived id status statusText =>
      if status < 400 then l
      else
        match getEntry l.requestErrorMessages id with
        | none =>
            { l with requestErrorMessages :=
                setEntry l.requestErrorMessages id (responseMsg status statusText) }
        | some value =>
            if value = errAborted then
              { l with requestErrorMessages :=
                  setEntry l.requestErrorMessages id (responseMsg status statusText) }
            else l
  | .loadingFailed id errorText =>
      match getEntry l.requestErrorMessages id with
      | none =>
          { l with requestErrorMessages := setEntry l.requestErrorMessages id errorText }
      | some _ => l

/-- Ledger obtained by processing a list of network events in delivery
order, starting from the empty maps. -/
def runLedger (events : List NetworkEvent) : RequestLedger :=
  events.foldl stepLedger ⟨[], []⟩

/-- Looking up a key right after setting it yields the new value. -/
theorem getEntry_setEntry_self (m : List (RequestID × String)) (k : RequestID) (v : String) :
    getEntry (setEntry m k v) k = some v := by
  induction m with
  | nil => simp [setEntry, getEntry]
  | cons hd tl ih =>
      obtain ⟨k0, v0⟩ := hd
      by_cases h : k0 = k
      · simp [setEntry, getEntry, h]
      · simp [setEntry, getEntry, h, ih]

/-- Claim C1 counterexample: a request first reported as net::ERR_ABORTED by
loadingFailed and then reported again by loadingFailed with the concrete
error text net::ERR_CONNECTION_REFUSED keeps the abort sentinel, because the
loadingFailed listener writes only when the key is absent (chrome.go line
356) — the final ledger entry is not the concrete text, contradicting the
claim that a later non-abort report through loadingFailed overwrites the
sentinel. -/
theorem C1_counterexample :
    getEntry (runLedger
      [NetworkEvent.loadingFailed "r1" "net::ERR_ABORTED",
       NetworkEvent.loadingFailed "r1" "net::ERR_CONNECTION_REFUSED"]).requestErrorMessages "r1"
      = some "net::ERR_ABORTED"
    ∧ ("net::ERR_ABORTED" : String) ≠ "net::ERR_CONNECTION_REFUSED" :=
  ⟨by decide, by decide⟩

/-- Claim C1 (amended): only the responseReceived listener upgrades an
existing net::ERR_ABORTED entry — a responseReceived report with status at
least 400 overwrites it with the status message; a loadingFailed report
never overwrites an existing entry of any value; and an existing non-abort
entry is never overwritten by responseReceived either, so apart from the
responseReceived upgrade of the abort sentinel the first recorded value
wins. -/
theorem C1_abort_upgrade (l : RequestLedger) (id : RequestID)
    (status : Int) (statusText errorText : String) :
    (getEntry l.requestErrorMessages id = some errAborted → 400 ≤ status →
      getEntry (stepLedger l (.responseReceived id status statusText)).requestErrorMessages id
        = some (responseMsg status statusText))
    ∧ (∀ v, getEntry l.requestErrorMessages id = some v →
        stepLedger l (.loadingFailed id errorText) = l)
    ∧ (∀ v, getEntry l.requestErrorMessages id = some v → v ≠ errAborted →
        stepLedger l (.responseReceived id status statusText) = l) := by
  refine ⟨?_, ?_, ?_⟩
  · intro hab hst
    have h4 : ¬ status < 400 := by omega
    simp [stepLedger, hab, h4, getEntry_setEntry_self]
  · intro v hv
    simp [stepLedger, hv]
  · intro v hv hne
    by_cases h4 : status < 400
    · simp [stepLedger, h4]
    · simp [stepLedger, h4, hv, hne]

/-- Claim C1 witness: a ledger holding the abort sentinel for request r1 is
upgraded to the concrete status message by a 404 responseReceived report. -/
theorem C1_abort_upgrade_witness :
    getEntry (stepLedger ⟨[("r1", "http://a")], [("r1", "net::ERR_ABORTED")]⟩
        (NetworkEvent.responseReceived "r1" 404 "Not Found")).requestErrorMessages "r1"
      = some (responseMsg 404 "Not Found") :=
  (C1_abort_upgrade ⟨[("r1", "http://a")], [("r1", "net::ERR_ABORTED")]⟩
      "r1" 404 "Not Found" "x").1 (by decide) (by decide)

/-! ## Resource-error surfacing (chrome.go lines 377-391) -/

/-- One line of the resource-error message for a failed request: the URL
recorded for the request id at requestWillBeSent time (the Go map zero value,
the empty string, when none was recorded) followed by a colon, a space and
the stored message (chrome.go line 384). -/
def ledgerLine (l : RequestLedger) (e : RequestID × String) : String :=
  (getEntry l.requestURLs e.1).getD "" ++ ": " ++ e.2

/-- Accumulation step of the message loop at chrome.go lines 379-385: a
newline is appended first whenever the accumulator is non-empty. -/
def appendLine (msg line : String) : String :=
  (if 0 < msg.length then msg ++ "\n" else msg) ++ line

/-- Newline-joined resource-error message built after the readiness batch,
one line per entry of requestErrorMessages (chrome.go lines 378-385). -/
def resourceErrorMsg (l : RequestLedger) : String :=
  (l.requestErrorMessages.map (ledgerLine l)).foldl appendLine ""

/-- Resource-error check after the readiness batch: an error message exactly
when requestErrorMessages is non-empty (chrome.go lines 377 and 386-390). -/
def resourceErrorCheck (l : RequestLedger) : Option String :=
  if 0 < l.requestErrorMessages.length then some (resourceErrorMsg l) else none

/-- Claim C9: a responseReceived with status below 400 leaves the ledger
untouched; after the readiness batch a non-empty error ledger yields the
newline-joined resource-error message; and a request whose response came
back 404 produces a message equal to its URL, a colon and the 404 status
message — in particular containing the URL and the digits 404. -/
theorem C9_resource_error (l : RequestLedger) (id : RequestID)
    (status : Int) (statusText url : String) :
    (status < 400 → stepLedger l (.responseReceived id status statusText) = l)
    ∧ (0 < l.requestErrorMessages.length → resourceErrorCheck l = some (resourceErrorMsg l))
    ∧ (resourceErrorCheck (runLedger
          [.requestWillBeSent id url, .responseReceived id 404 statusText])
        = some (url ++ ": " ++ responseMsg 404 statusText)
      ∧ strContains (url ++ ": " ++ responseMsg 404 statusText) url = true
      ∧ strContains (url ++ ": " ++ responseMsg 404 statusText) "404" = true) := by
  refine ⟨?_, ?_, ?_, ?_, ?_⟩
  · intro h
    simp [stepLedger, h]
  · intro h
    simp [resourceErrorCheck, h]
  · have h4 : ¬ (404 : Int) < 400 := by decide
    simp [runLedger, stepLedger, setEntry, getEntry, h4, resourceErrorCheck,
      resourceErrorMsg, ledgerLine, appendLine]
  · exact strContains_mk _ _ [] ((": " ++ responseMsg 404 statusText).data) (by simp)
  · have h404 : toString (404 : Int) = "404" := by decide
    exact strContains_mk _ _ (url.data ++ (": ").data) ((" " ++ statusText).data)
      (by simp [responseMsg, h404])

/-- Claim C9 witness: a ledger holding one failed request produces the
resource-error message. -/
theorem C9_resource_error_witness :
    resourceErrorCheck ⟨[("r1", "http://t/api")], [("r1", "404 Not Found")]⟩
      = some (resourceErrorMsg ⟨[("r1", "http://t/api")], [("r1", "404 Not Found")]⟩) :=
  (C9_resource_error ⟨[("r1", "http://t/api")], [("r1", "404 Not Found")]⟩
      "r1" 404 "" "").2.1 (by decide)

/-! ## Teardown of the isolated target (chrome.go lines 104, 120, 146, 157)

The resolver of chromePrinter.Print registers four deferred release actions;
Go runs deferred calls in last-in-first-out order when the function
returns. -/

/-- Release actions deferred inside the resolver of chromePrinter.Print. -/
inductive ReleaseAction where
  | closeDevtConn
  | disposeBrowserContext
  | closeTargetConn
  | closeTarget
deriving DecidableEq

/-- Context a teardown call runs under: the fresh non-cancelled
context.Background(), or no context at all (rpcc connection Close takes
none). -/
inductive TeardownCtx where
  | background
  | noCtx
deriving DecidableEq

/-- Registration order of the deferred release actions, i.e. the source
order of the defer statements in the resolver: devtConn.Close at line 104,
Target.DisposeBrowserContext at line 120, newContextConn.Close at line 146,
Target.CloseTarget at line 157. -/
def deferRegistration : List ReleaseAction :=
  [.closeDevtConn, .disposeBrowserContext, .closeTargetConn, .closeTarget]

/-- Execution order of the deferred calls when the resolver returns: Go
defers run in last-in-first-out order. -/
def teardownOrder : List ReleaseAction := deferRegistration.reverse

/-- Context used by each deferred action: CloseTarget and
DisposeBrowserContext are invoked with context.Background() (chrome.go
lines 157 and 120); the two connection Close calls take no context. -/
def teardownCtx : ReleaseAction → TeardownCtx
  | .closeDevtConn => .noCtx
  | .closeTargetConn => .noCtx
  | .disposeBrowserContext => .background
  | .closeTarget => .background

/-- Target-scoped portion of the teardown: every deferred action except the
browser-level devtools connection close. -/
def targetScopedTeardown : List ReleaseAction :=
  teardownOrder.filter (fun a => decide (a ≠ ReleaseAction.closeDevtConn))

/-- Claim C2 counterexample: the target-scoped deferred release actions do
not run in the claimed order close-WebSocket, CloseTarget,
DisposeBrowserContext — CloseTarget is the last defer registered (line 157,
after the connection close at line 146), so LIFO execution runs CloseTarget
before the WebSocket close. -/
theorem C2_counterexample :
    targetScopedTeardown
      ≠ [ReleaseAction.closeTargetConn, ReleaseAction.closeTarget,
         ReleaseAction.disposeBrowserContext]
    ∧ targetScopedTeardown
      = [ReleaseAction.closeTarget, ReleaseAction.closeTargetConn,
         ReleaseAction.disposeBrowserContext] :=
  ⟨by decide, by decide⟩

/-- Claim C2 (amended): teardown of an isolated target runs the deferred
release actions in LIFO order of their registration — CloseTarget(targetId)
first, then the close of the target-scoped WebSocket connection, then
DisposeBrowserContext(contextId), and finally the browser-level devtools
connection close — and the CloseTarget and DisposeBrowserContext calls use a
fresh context.Background(), not the render context, so they execute even
after the render deadline has expired or its scope was cancelled. -/
theorem C2_teardown_order :
    teardownOrder
      = [ReleaseAction.closeTarget, ReleaseAction.closeTargetConn,
         ReleaseAction.disposeBrowserContext, ReleaseAction.closeDevtConn]
    ∧ teardownCtx ReleaseAction.closeTarget = TeardownCtx.background
    ∧ teardownCtx ReleaseAction.disposeBrowserContext = TeardownCtx.background :=
  ⟨by decide, by decide, by decide⟩

/-! ## Destination-file write (chrome.go lines 453-465)

The printer closure opens the destination with
os.OpenFile(destination, os.O_CREATE|os.O_WRONLY, 0600) and copies the CDP
IO stream into it through a buffered reader. -/

/-- Open flags of os.OpenFile as used by the printer closure. -/
structure OpenFlags where
  create : Bool
  writeOnly : Bool
  truncate : Bool
  append : Bool
deriving DecidableEq

/-- Flags passed at chrome.go line 456: os.O_CREATE with os.O_WRONLY —
neither os.O_TRUNC nor os.O_APPEND is set. -/
def printerOpenFlags : OpenFlags :=
  { create := true, writeOnly := true, truncate := false, append := false }

/-- Permission bits passed at chrome.go line 456. -/
def printerFileMode : Nat := 0o600

/-- POSIX open-then-write semantics for a regular file: prior is the
existing content at the path (none when the file does not exist).  Open
fails when the file is missing and O_CREATE is clear; otherwise, without
O_APPEND, writing starts at offset zero and overwrites in place, so bytes of
an existing file beyond the written length survive unless O_TRUNC cleared
them first. -/
def writeFile (flags : OpenFlags) (prior : Option (List Nat)) (data : List Nat) :
    Option (List Nat) :=
  match prior with
  | none => if flags.create then some data else none
  | some old =>
      let base := if flags.truncate then [] else old
      some (data ++ base.drop data.length)

/-- Claim C3 counterexample: with the flags the printer actually passes —
no O_TRUNC — streaming the single byte 80 over an existing three-byte file
65 66 67 leaves 80 66 67 on disk: the previous content is not fully
replaced and the file does not equal the streamed bytes. -/
theorem C3_counterexample :
    writeFile printerOpenFlags (some [65, 66, 67]) [80] = some [80, 66, 67]
    ∧ some [80, 66, 67] ≠ some ([80] : List Nat) :=
  ⟨by decide, by decide⟩

/-- Claim C3 (amended): the destination is opened create-or-write-in-place
(O_CREATE and O_WRONLY, without O_TRUNC), permission bits 0600.  When no
file exists at the path a file holding exactly the streamed bytes is
created; when a file already exists the stream overwrites it from offset
zero, so the result is the streamed bytes followed by any previous bytes
beyond the stream length. -/
theorem C3_stream_to_file (data old : List Nat) :
    writeFile printerOpenFlags none data = some data
    ∧ writeFile printerOpenFlags (some old) data = some (data ++ old.drop data.length)
    ∧ printerOpenFlags.create = true
    ∧ printerOpenFlags.writeOnly = true
    ∧ printerOpenFlags.truncate = false
    ∧ printerFileMode = 0o600 := by
  refine ⟨rfl, ?_, rfl, rfl, rfl, rfl⟩
  simp [writeFile, printerOpenFlags]

/-! ## Admission control (chrome.go lines 481-525)

chromePrinter.Print guards the render behind the process-wide
devtConnections counter and the one-capacity lockChrome channel. -/

/-- Admission-relevant state of Print: the process-wide devtConnections
counter, the occupancy of the one-capacity lockChrome channel, the CDP
calls issued so far, and the destination-file content. -/
structure PrintState where
  devtConnections : Int
  lockChromeTaken : Bool
  browserCalls : List String
  destFile : Option (List Nat)
deriving DecidableEq

/-- Outcome of the admission prologue of chromePrinter.Print. -/
inductive AdmitOutcome where
  | fastPath
  | noCapacity (msg : String)
  | blockOnLock
deriving DecidableEq

/-- Admission prologue of chromePrinter.Print, straight from the three
branches at lines 481, 494 and 501: strict fast-path test
devtConnections + 1 < MaxConnections, which increments the counter and
calls the resolver without touching lockChrome; refusal with the
xerror.Invalid message when devtConnections ≥ MaxConnections and
WaitForConnection is false — returned before any other statement, so the
state is untouched; otherwise the caller selects on lockChrome against the
context deadline. -/
def admissionStep (s : PrintState) (maxConnections : Int) (waitForConnection : Bool) :
    AdmitOutcome × PrintState :=
  if s.devtConnections + 1 < maxConnections then
    (.fastPath, { s with devtConnections := s.devtConnections + 1 })
  else if s.devtConnections ≥ maxConnections ∧ waitForConnection = false then
    (.noCapacity "no available connections", s)
  else
    (.blockOnLock, s)

/-- Claim C4: with active count a and options MaxConnections m and
WaitForConnection w, a + 1 < m admits immediately, incrementing the counter
and leaving the lock slot untouched; the render is refused with the
no-available-connections error exactly when a ≥ m and w is false; in every
remaining case — a + 1 ≥ m with a < m, or w true — the caller blocks on the
one-capacity slot; in particular at a = m − 1 admission always goes through
the slot, even when w is false. -/
theorem C4_admission (s : PrintState) (m : Int) (w : Bool) :
    (s.devtConnections + 1 < m →
      admissionStep s m w
        = (.fastPath, { s with devtConnections := s.devtConnections + 1 }))
    ∧ ((admissionStep s m w).1 = .noCapacity "no available connections"
        ↔ s.devtConnections ≥ m ∧ w = false)
    ∧ (s.devtConnections + 1 ≥ m → (s.devtConnections < m ∨ w = true) →
        (admissionStep s m w).1 = .blockOnLock)
    ∧ (s.devtConnections = m - 1 → (admissionStep s m w).1 = .blockOnLock) := by
  refine ⟨?_, ?_, ?_, ?_⟩
  · intro h
    simp [admissionStep, h]
  · constructor
    · intro h
      by_cases h1 : s.devtConnections + 1 < m
      · simp [admissionStep, h1] at h
      · by_cases h2 : s.devtConnections ≥ m ∧ w = false
        · exact h2
        · simp [admissionStep, h1, h2] at h
    · rintro ⟨hm, hw⟩
      have h1 : ¬ s.devtConnections + 1 < m := by omega
      simp [admissionStep, h1, hm, hw]
  · intro h1 h2
    have hlt : ¬ s.devtConnections + 1 < m := by omega
    have hno : ¬ (s.devtConnections ≥ m ∧ w = false) := by
      rintro ⟨hm, hw⟩
      rcases h2 with h2 | h2
      · omega
      · rw [h2] at hw
        exact absurd hw (by decide)
    simp [admissionStep, hlt, hno]
  · intro h
    have hlt : ¬ s.devtConnections + 1 < m := by omega
    have hno : ¬ (s.devtConnections ≥ m ∧ w = false) := by
      rintro ⟨hm, _⟩
      omega
    simp [admissionStep, hlt, hno]

/-- Claim C4 witness: at three active connections with MaxConnections three
and WaitForConnection false, Print is refused with the
no-available-connections error. -/
theorem C4_admission_witness :
    (admissionStep ⟨3, false, [], none⟩ 3 false).1
      = AdmitOutcome.noCapacity "no available connections" :=
  ((C4_admission ⟨3, false, [], none⟩ 3 false).2.1).mpr (by decide)

/-- Claim C10: whenever the admission prologue refuses with a NoCapacity
error it leaves the state exactly as it found it — the refusal at chrome.go
lines 494-500 returns before the resolver runs, so the devtConnections
counter is unchanged, lockChrome is not taken, no CDP call is issued and
the destination file is untouched. -/
theorem C10_refusal_side_effect_free (s s2 : PrintState) (m : Int) (w : Bool) (msg : String)
    (h : admissionStep s m w = (.noCapacity msg, s2)) :
    s2 = s ∧ s2.devtConnections = s.devtConnections
      ∧ s2.lockChromeTaken = s.lockChromeTaken
      ∧ s2.browserCalls = s.browserCalls
      ∧ s2.destFile = s.destFile := by
  have hs : s2 = s := by
    by_cases h1 : s.devtConnections + 1 < m
    · simp [admissionStep, h1] at h
    · by_cases h2 : s.devtConnections ≥ m ∧ w = false
      · simp [admissionStep, h1, h2] at h
        exact h.2.symm
      · simp [admissionStep, h1, h2] at h
  exact ⟨hs, by rw [hs], by rw [hs], by rw [hs], by rw [hs]⟩

/-- Claim C10 witness: a concrete refused admission leaves the concrete
state unchanged. -/
theorem C10_refusal_side_effect_free_witness :
    (⟨3, false, [], none⟩ : PrintState) = ⟨3, false, [], none⟩
    ∧ (⟨3, false, [], none⟩ : PrintState).devtConnections = (3 : Int)
    ∧ (⟨3, false, [], none⟩ : PrintState).lockChromeTaken = false
    ∧ (⟨3, false, [], none⟩ : PrintState).browserCalls = []
    ∧ (⟨3, false, [], none⟩ : PrintState).destFile = none :=
  C10_refusal_side_effect_free ⟨3, false, [], none⟩ ⟨3, false, [], none⟩ 3 false
    "no available connections" (by decide)

/-! ## Readiness gating (chrome.go lines 572-654)

chromePrinter.listenEvents navigates and then runs a batch of four sibling
tasks: one Recv on domContentEventFired, one Recv on loadEventFired, a loop
on lifecycleEvent that breaks at the first event named networkIdle, and one
Recv on loadingFinished.  runBatch (errgroup) returns success only when
every sibling has returned. -/

/-- Lifecycle gate of listenEvents (chrome.go lines 626-639): receptions are
drained in order and the gate completes at the first event whose name equals
networkIdle; every other name is ignored. -/
def lifecycleGateDone : List String → Bool
  | [] => false
  | n :: rest => if n = "networkIdle" then true else lifecycleGateDone rest

/-- Readiness batch of listenEvents: domContentFired, loadFired and
loadingFinishedFired record whether the corresponding single Recv completed,
lifecycleNames is the sequence of lifecycle-event names delivered; the batch
is done exactly when all four sibling tasks have returned (chrome.go lines
608-648). -/
def listenEventsDone (domContentFired loadFired : Bool)
    (lifecycleNames : List String) (loadingFinishedFired : Bool) : Bool :=
  domContentFired && loadFired && lifecycleGateDone lifecycleNames && loadingFinishedFired

/-- Claim C5: the event-wait stage returns success exactly when all four
signals were observed — domContentEventFired, loadEventFired, a lifecycle
event named networkIdle, and loadingFinished; the lifecycle gate completes
exactly when some delivered lifecycle event is named networkIdle, so
lifecycle events with any other name are drained, ignored and never complete
the gate. -/
theorem C5_readiness (d l : Bool) (names : List String) (f : Bool) :
    (listenEventsDone d l names f = true ↔
      d = true ∧ l = true ∧ lifecycleGateDone names = true ∧ f = true)
    ∧ (lifecycleGateDone names = true ↔ "networkIdle" ∈ names)
    ∧ ("networkIdle" ∉ names → listenEventsDone d l names f = false) := by
  have hgate : ∀ ns : List String, (lifecycleGateDone ns = true ↔ "networkIdle" ∈ ns) := by
    intro ns
    induction ns with
    | nil => simp [lifecycleGateDone]
    | cons n rest ih =>
        by_cases h : n = "networkIdle"
        · simp [lifecycleGateDone, h]
        · have h2 : ¬ ("networkIdle" : String) = n := fun hh => h hh.symm
          simp [lifecycleGateDone, h, ih, h2]
  refine ⟨?_, hgate names, ?_⟩
  · simp [listenEventsDone, Bool.and_assoc]
  · intro hmem
    have : lifecycleGateDone names = false := by
      rcases Bool.eq_false_or_eq_true (lifecycleGateDone names) with h | h
      · exact absurd ((hgate names).mp h) hmem
      · exact h
    simp [listenEventsDone, this]

/-- Claim C5 witness: with both page gates fired, a lifecycle trace whose
second event is networkIdle, and loadingFinished fired, the batch is done. -/
theorem C5_readiness_witness :
    listenEventsDone true true ["init", "networkIdle"] true = true :=
  ((C5_readiness true true ["init", "networkIdle"] true).1).mpr
    ⟨rfl, rfl, by decide, rfl⟩

/-! ## The poll loop (chrome.go lines 708-730)

poll creates a 1 second timer, stops it and drains its channel before the
loop, so the first evaluation of fn happens immediately; after a false
sample it re-arms the timer at 100 ms and waits for the tick or the context
deadline.  The model indexes evaluations: f i is the result of the i-th call
of fn, and ticksLeft counts how many 100 ms waits the enclosing deadline
still allows — when a wait is needed and none is allowed, the context error
is returned. -/

/-- Outcome of poll: normal return on a true sample, the predicate error
unchanged, or ctx.Err() when the deadline fires during a wait. -/
inductive PollOutcome where
  | success
  | fnError (e : String)
  | ctxError
deriving DecidableEq

/-- Tick interval the timer is re-armed with after every false sample
(chrome.go line 723), in milliseconds. -/
def pollTickMs : Nat := 100

/-- Shallow model of poll: evaluate f i first — before any wait, which is
what stopping and draining the pre-armed 1 second timer achieves — and
return on an error or a true result; on false, wait one tick when the
deadline allows it and continue with the next evaluation, otherwise return
the context error. -/
def pollModel (f : Nat → Except String Bool) : Nat → Nat → PollOutcome
  | i, 0 =>
    match f i with
    | .error e => .fnError e
    | .ok true => .success
    | .ok false => .ctxError
  | i, t + 1 =>
    match f i with
    | .error e => .fnError e
    | .ok true => .success
    | .ok false => pollModel f (i + 1) t

/-- Claim C6: poll evaluates the predicate once immediately — a true or an
erroring first sample decides the outcome regardless of how many ticks the
deadline would still allow, in particular even when it allows none; it
returns success on the first true result and the predicate error unchanged
on the first error; a false sample with no tick allowed yields the context
error; and a false sample with a tick allowed waits exactly one tick and
continues with the next evaluation. -/
theorem C6_poll (f : Nat → Except String Bool) (i t : Nat) :
    (f i = .ok true → pollModel f i t = .success)
    ∧ (∀ e, f i = .error e → pollModel f i t = .fnError e)
    ∧ (f i = .ok false → pollModel f i 0 = .ctxError)
    ∧ (f i = .ok false → pollModel f i (t + 1) = pollModel f (i + 1) t) := by
  refine ⟨?_, ?_, ?_, ?_⟩
  · intro h
    cases t <;> simp [pollModel, h]
  · intro e h
    cases t <;> simp [pollModel, h]
  · intro h
    simp [pollModel, h]
  · intro h
    simp [pollModel, h]

/-- Claim C6 witness: a predicate that is false on its first sample and true
on its second makes poll wait one tick and then succeed. -/
theorem C6_poll_witness :
    pollModel (fun i => Except.ok (decide (0 < i))) 0 1
      = pollModel (fun i => Except.ok (decide (0 < i))) 1 0
    ∧ pollModel (fun i => Except.ok (decide (0 < i))) 1 0 = PollOutcome.success :=
  ⟨(C6_poll (fun i => Except.ok (decide (0 < i))) 0 0).2.2.2 rfl,
   (C6_poll (fun i => Except.ok (decide (0 < i))) 1 0).1 rfl⟩

/-! ## Benign-signal classification (chrome.go lines 211, 228, 241, 260,
279, 295, 314, 343)

The waiter closure and the JS-status wait convert errors whose message
contains the Go context sentinel to a nil return; every event listener does
the same for the rpcc stream-closing sentinel. -/

/-- Conversion applied by the waiter closure and the JS-status wait
(chrome.go lines 211 and 228): none models the nil-error return, some models
propagating the error unchanged. -/
def waiterClassify (errMsg : String) : Option String :=
  if strContains errMsg "context canceled" then none else some errMsg

/-- Conversion applied by every event-listener closure on a Recv error
(chrome.go lines 241, 260, 279, 295, 314, 343). -/
def listenerClassify (errMsg : String) : Option String :=
  if strContains errMsg "rpcc: the stream is closing" then none else some errMsg

/-- Claim C7 counterexample: an error whose message contains the claimed
sentinel context cancelled (British spelling) is propagated, not converted —
the code matches the Go spelling context canceled; likewise an error
containing stream is closing but not the full rpcc sentinel rpcc: the
stream is closing is propagated by the listeners. -/
theorem C7_counterexample :
    strContains "wait: context cancelled" "context cancelled" = true
    ∧ waiterClassify "wait: context cancelled" = some "wait: context cancelled"
    ∧ strContains "ws read: stream is closing" "stream is closing" = true
    ∧ listenerClassify "ws read: stream is closing" = some "ws read: stream is closing" :=
  ⟨by decide, by decide, by decide, by decide⟩

/-- Claim C7 (amended): the sentinels matched by substring are context
canceled — the Go spelling — in the waiter and the JS-status wait, and
rpcc: the stream is closing in every event listener; an error whose message
contains the sentinel is converted to a nil-error return and every other
error is propagated unchanged, so only the top-level cause of a
cancellation reaches the caller. -/
theorem C7_benign_classification (msg : String) :
    (strContains msg "context canceled" = true → waiterClassify msg = none)
    ∧ (strContains msg "context canceled" = false → waiterClassify msg = some msg)
    ∧ (strContains msg "rpcc: the stream is closing" = true → listenerClassify msg = none)
    ∧ (strContains msg "rpcc: the stream is closing" = false →
        listenerClassify msg = some msg) := by
  refine ⟨?_, ?_, ?_, ?_⟩ <;> intro h <;> simp [waiterClassify, listenerClassify, h]

/-- Claim C7 witness: the genuine Go sentinels are converted to nil
returns. -/
theorem C7_benign_classification_witness :
    waiterClassify "Post: context canceled" = none
    ∧ listenerClassify "rpcc: the stream is closing" = none :=
  ⟨(C7_benign_classification "Post: context canceled").1 (by decide),
   (C7_benign_classification "rpcc: the stream is closing").2.2.1 (by decide)⟩

/-! ## PrintToPDF error translation (chrome.go lines 427-451) -/

/-- Single-quote character, built numerically to keep the embedded Go
message texts faithful. -/
def sq : String := String.singleton (Char.ofNat 39)

/-- Error returned by the printer closure when PrintToPDF fails. -/
inductive PrintToPDFError where
  | invalidPageRange (msg : String)
  | bufferTooSmall (msg : String)
  | passthrough (msg : String)
deriving DecidableEq

/-- Message of the invalid-page-range error (chrome.go line 436): the
configured page-range expression in single quotes followed by the fixed
text. -/
def invalidPageRangeMsg (pageRanges : String) : String :=
  sq ++ pageRanges ++ sq ++ " is not a valid Google Chrome page ranges"

/-- Fixed tail of the buffer-too-small message (chrome.go line 444). -/
def bufferTooSmallTail : String :=
  " bytes are not enough: increase the Google Chrome rpcc buffer size (up to 100 MB)"

/-- Message of the buffer-too-small error (chrome.go lines 443-445): the
configured rpcc buffer size in single quotes followed by the guidance that
it may be increased up to 100 MB. -/
def bufferTooSmallMsg (rpccBufferSize : Int) : String :=
  sq ++ toString rpccBufferSize ++ sq ++ bufferTooSmallTail

/-- PrintToPDF error translation, straight from the two strings.Contains
tests at chrome.go lines 433 and 440: substring Page range syntax error
yields the invalid-page-range error naming the configured expression;
otherwise substring rpcc: message too large yields the buffer-too-small
error carrying the configured size; any other error is returned unchanged. -/
def translatePrintToPDFError (pageRanges : String) (rpccBufferSize : Int)
    (errMsg : String) : PrintToPDFError :=
  if strContains errMsg "Page range syntax error" then
    .invalidPageRange (invalidPageRangeMsg pageRanges)
  else if strContains errMsg "rpcc: message too large" then
    .bufferTooSmall (bufferTooSmallMsg rpccBufferSize)
  else .passthrough errMsg

/-- Containment is preserved by prepending. -/
theorem strContains_append_right (a b pat : String) (h : strContains b pat = true) :
    strContains (a ++ b) pat = true := by
  rw [strContains_iff] at h ⊢
  rw [String.data_append]
  exact List.IsInfix.trans h ⟨a.data, [], by simp⟩

/-- Claim C8 counterexample: an error containing message too large but not
the full rpcc sentinel rpcc: message too large is propagated unchanged, not
translated to the buffer-too-small error as the claim states. -/
theorem C8_counterexample :
    strContains "websocket: message too large" "message too large" = true
    ∧ translatePrintToPDFError "" 1048576 "websocket: message too large"
        = PrintToPDFError.passthrough "websocket: message too large" :=
  ⟨by decide, by decide⟩

/-- Claim C8 (amended): an error containing Page range syntax error becomes
the invalid-page-range error whose message names the configured page-range
expression; otherwise an error containing the sentinel rpcc: message too
large — not the bare message too large — becomes the buffer-too-small error
whose message carries the configured buffer size and the guidance that it
may be increased up to 100 MB; every other PrintToPDF error is propagated
unchanged. -/
theorem C8_print_error_translation (pageRanges : String) (bufSize : Int) (errMsg : String) :
    (strContains errMsg "Page range syntax error" = true →
      translatePrintToPDFError pageRanges bufSize errMsg
        = .invalidPageRange (invalidPageRangeMsg pageRanges))
    ∧ (strContains errMsg "Page range syntax error" = false →
       strContains errMsg "rpcc: message too large" = true →
      translatePrintToPDFError pageRanges bufSize errMsg
        = .bufferTooSmall (bufferTooSmallMsg bufSize))
    ∧ (strContains errMsg "Page range syntax error" = false →
       strContains errMsg "rpcc: message too large" = false →
      translatePrintToPDFError pageRanges bufSize errMsg = .passthrough errMsg)
    ∧ strContains (invalidPageRangeMsg pageRanges) pageRanges = true
    ∧ strContains (bufferTooSmallMsg bufSize) "up to 100 MB" = true := by
  refine ⟨?_, ?_, ?_, ?_, ?_⟩
  · intro h
    simp [translatePrintToPDFError, h]
  · intro h1 h2
    simp [translatePrintToPDFError, h1, h2]
  · intro h1 h2
    simp [translatePrintToPDFError, h1, h2]
  · exact strContains_mk _ _ sq.data
      ((sq ++ " is not a valid Google Chrome page ranges").data) (by simp [invalidPageRangeMsg])
  · exact strContains_append_right (sq ++ toString bufSize ++ sq) bufferTooSmallTail
      "up to 100 MB" (by decide)

/-- Claim C8 witness: the exact rpcc sentinel is translated to the
buffer-too-small error carrying the configured size. -/
theorem C8_print_error_translation_witness :
    translatePrintToPDFError "1-2" 1048576 "rpcc: message too large"
      = PrintToPDFError.bufferTooSmall (bufferTooSmallMsg 1048576) :=
  (C8_print_error_translation "1-2" 1048576 "rpcc: message too large").2.1
    (by decide) (by decide)

end Gotenberg
